import Mathlib

set_option autoImplicit false

/-!
Shallow embedding of the actor/state registry of `mppiisaac`
(`src/mppiisaac/planner/isaacgym_wrapper.py`).

Modelling choices:
* real scalars are rationals (`ℚ`); the arithmetic relevant to the claims
  (differential-drive inverse kinematics, fixed ±0.1 thresholds) is exact;
* torch tensors are nested lists: the root-state tensor is
  `environments × actors × 13`, a command batch is `environments × columns`;
* the Isaac Gym backend is an opaque record (`Backend`) supplying the
  per-actor DOF count and DOF dictionary, exactly the two queries
  `apply_robot_cmd` makes (`get_actor_dof_count`, `get_actor_dof_dict`);
* Python exceptions are modelled with `Except Err`; a raised exception
  aborts the method before any later mutation, so an `Except.error` result
  leaves the caller's state untouched;
* mutation of `self` is modelled by explicit state passing on `SimState`.
-/

/-- The `SupportedActorTypes` enum (isaacgym_wrapper.py lines 42-46). -/
inductive ActorType where
  | axis
  | robot
  | sphere
  | box
  deriving DecidableEq, Repr

/-- The `ActorWrapper` dataclass (lines 49-77), restricted to the fields the
claims exercise; remaining fields (mass, color, noise parameters, ...) do not
influence any modelled code path. Defaults are the dataclass defaults. -/
structure ActorWrapper where
  type : ActorType
  name : String
  dof_mode : String := "velocity"
  init_pos : List ℚ := [0, 0, 0]
  init_ori : List ℚ := [0, 0, 0, 1]
  size : List ℚ := [1/10, 1/10, 1/10]
  fixed : Bool := false
  collision : Bool := true
  handle : Option Nat := none
  differential_drive : Bool := false
  wheel_radius : Option ℚ := none
  wheel_base : Option ℚ := none
  left_wheel_joints : Option (List String) := none
  right_wheel_joints : Option (List String) := none
  deriving DecidableEq, Repr

/-- The backend session queries used by the wrapper: per-handle DOF count
(`get_actor_dof_count`), per-handle DOF dictionary (`get_actor_dof_dict`,
a joint-name → DOF-index map in insertion order), and the per-environment
total DOF count that fixes the width of the acquired DOF-state tensor. -/
structure Backend where
  dof_count : Nat → Nat
  dof_dict : Nat → List (String × Nat)
  total_dofs : Nat

/-- Python exception kinds raised by the modelled code paths. -/
inductive Err where
  | valueError
  | attributeError
  | indexError
  | typeError
  deriving DecidableEq, Repr

/-- Registry state: the attributes of `IsaacGymWrapper` the claims touch.
`robot_indices` models the attribute assigned at line 206
(`self.robot_indices = ...`); `robot_indices_attr` models the *distinct*
attribute `self._robot_indices` that the accessors at lines 270-296 and 375
read — no statement in the source ever assigns it, so it stays `none`
(reading it raises `AttributeError`). The three `sink_*` fields model the
backend actuation targets fed by `set_dof_actuation_force_tensor`,
`set_dof_velocity_target_tensor` and `set_dof_state_tensor`;
`backend_root` models the backend's committed copy of the root-state
tensor written by `set_actor_root_state_tensor[_indexed]`. -/
structure SimState where
  env_cfg : List ActorWrapper
  restarted : Nat
  num_envs : Nat
  backend : Backend
  root_state : List (List (List ℚ))
  backend_root : List (List (List ℚ))
  saved_root_state : Option (List (List (List ℚ)))
  robot_indices : List Nat
  robot_indices_attr : Option (List Nat)
  sink_effort : Option (List (List ℚ))
  sink_velocity : Option (List (List ℚ))
  sink_dofstate : Option (List (List ℚ))

/-- `tensor[j, idx] = f tensor[j, idx]` on one list level: apply `f` at
position `i`, identity elsewhere (valid indices are guaranteed by the
callers in the source). -/
def modifyAt {α : Type} : List α → Nat → (α → α) → List α
  | [], _, _ => []
  | x :: xs, 0, f => f x :: xs
  | x :: xs, Nat.succ n, f => x :: modifyAt xs n f

/-- The hidden obstacle appended by `start_sim` on the second build
(lines 142-155): a fixed, collision-free sphere named `"dummy"`. -/
def dummyActor : ActorWrapper :=
  { type := ActorType.sphere, name := "dummy", handle := none, size := [1/10],
    fixed := true, init_pos := [0, 0, -10], collision := false }

/-- Creation pose of one actor as a 13-column root-state row:
position (3), orientation (4), linear velocity (3), angular velocity (3). -/
def initialRow (a : ActorWrapper) : List ℚ :=
  a.init_pos ++ a.init_ori ++ [0, 0, 0, 0, 0, 0]

/-- `actor_cfg.handle = self._create_actor(...)` for each descriptor in order
(lines 176-179): Isaac Gym hands out per-environment actor handles in
creation order, so descriptor `i` records handle `i`. -/
def assignHandles (cfg : List ActorWrapper) : List ActorWrapper :=
  cfg.enum.map (fun p => { p.2 with handle := some p.1 })

/-- `start_sim` (lines 124-236), restricted to its registry effects:
append the `"dummy"` sphere exactly when the restart counter equals 2 and
bump the counter (lines 141-158); assign handles (176-179); acquire the
root-state tensor at the creation poses and clear the saved snapshot
(186-189); record the robot index list — into `robot_indices`, line 206,
*not* into `_robot_indices` (`robot_indices_attr` is left untouched).
Viewer setup, asset loading, DOF initialisation and the obstacle index list
have no bearing on any claim and are elided. -/
def start_sim (s : SimState) : SimState :=
  let cfg1 := if s.restarted = 2 then s.env_cfg ++ [dummyActor] else s.env_cfg
  let cfg2 := assignHandles cfg1
  let rs := List.replicate s.num_envs (cfg2.map initialRow)
  { s with
    env_cfg := cfg2,
    restarted := s.restarted + 1,
    root_state := rs,
    backend_root := rs,
    saved_root_state := none,
    robot_indices :=
      cfg2.enum.filterMap
        (fun p => if p.2.type = ActorType.robot then some p.1 else none) }

/-- `IsaacGymWrapper.__init__` (lines 84-114): stores the configuration,
sets `restarted := 1` and calls `start_sim`. The source performs *no*
duplicate-name check (line 98 is only a TODO comment), so construction is
total. The `init_positions` override (lines 102-106) is bypassed
(`init_positions=None`). -/
def wrapperInit (env_cfg : List ActorWrapper) (num_envs : Nat) (be : Backend) : SimState :=
  start_sim
    { env_cfg := env_cfg, restarted := 1, num_envs := num_envs, backend := be,
      root_state := [], backend_root := [], saved_root_state := none,
      robot_indices := [], robot_indices_attr := none,
      sink_effort := none, sink_velocity := none, sink_dofstate := none }

/-- `stop_sim` (lines 413-418) destroys viewer/envs/sim; none of the
modelled registry fields change. -/
def stop_sim (s : SimState) : SimState := s

/-- `_get_actor_index_by_name` (lines 292-293): first index whose name
matches; Python `list.index` raises `ValueError` on a miss. -/
def get_actor_index_by_name (s : SimState) (name : String) : Except Err Nat :=
  match s.env_cfg.findIdx? (fun a => a.name == name) with
  | some i => Except.ok i
  | none => Except.error Err.valueError

/-- `_get_actor_index_by_robot_index` (lines 295-296): reads
`self._robot_indices`, an attribute never assigned anywhere in the source
(line 206 assigns `self.robot_indices` instead), so in a freshly built
session the lookup raises `AttributeError`. -/
def get_actor_index_by_robot_index (s : SimState) (robot_idx : Nat) : Except Err Nat :=
  match s.robot_indices_attr with
  | none => Except.error Err.attributeError
  | some l =>
    match l.get? robot_idx with
    | some i => Except.ok i
    | none => Except.error Err.indexError

/-- `get_actor_position_by_actor_index` (lines 299-300):
`torch.index_select(self._root_state, 1, idx)[:, 0, 0:3]` — per
environment, columns 0:3 of row `idx`; an out-of-range index raises. -/
def get_actor_position_by_actor_index (s : SimState) (actor_idx : Nat) :
    Except Err (List (List ℚ)) :=
  if s.root_state.all (fun env => decide (actor_idx < env.length)) then
    Except.ok (s.root_state.map (fun env => (env.getD actor_idx []).take 3))
  else Except.error Err.indexError

/-- `get_actor_position_by_name` (lines 302-304). -/
def get_actor_position_by_name (s : SimState) (name : String) :
    Except Err (List (List ℚ)) := do
  let i ← get_actor_index_by_name s name
  get_actor_position_by_actor_index s i

/-- `get_actor_position_by_robot_index` (lines 306-308). -/
def get_actor_position_by_robot_index (s : SimState) (robot_idx : Nat) :
    Except Err (List (List ℚ)) := do
  let i ← get_actor_index_by_robot_index s robot_idx
  get_actor_position_by_actor_index s i

/-- `row[:3] = position` on one 13-column row (line 363); the source always
passes a 3-vector. -/
def setPosRow (position : List ℚ) (row : List ℚ) : List ℚ :=
  position.take 3 ++ row.drop 3

/-- `set_actor_root_state_tensor_indexed(sim, full_tensor, [idx], 1)`
(lines 364-366): the backend overwrites, in each environment, only row
`idx` of its committed copy with row `idx` of the supplied tensor. -/
def indexedRootPush (dst src : List (List (List ℚ))) (idx : Nat) :
    List (List (List ℚ)) :=
  List.zipWith (fun denv senv => modifyAt denv idx (fun _ => senv.getD idx [])) dst src

/-- `set_actor_position_by_actor_index` (lines 360-366): write columns 0:3
of row `actor_idx` in every environment, then push only that actor's rows
to the backend. -/
def set_actor_position_by_actor_index (s : SimState) (position : List ℚ)
    (actor_idx : Nat) : SimState :=
  let rs := s.root_state.map (fun env => modifyAt env actor_idx (setPosRow position))
  { s with root_state := rs,
           backend_root := indexedRootPush s.backend_root rs actor_idx }

/-- `m[:, j]`: read column `j` of a batch; torch raises `IndexError` when
the column index is out of range. -/
def colRead (m : List (List ℚ)) (j : Nat) : Except Err (List ℚ) :=
  if (m.all (fun row => decide (j < row.length))) = true then
    Except.ok (m.map (fun row => row.getD j 0))
  else Except.error Err.indexError

/-- `u[:, i] = col`: write column `i` of a batch. -/
def colWrite (u : List (List ℚ)) (i : Nat) (col : List ℚ) : List (List ℚ) :=
  List.zipWith (fun row v => row.set i v) u col

/-- The differential-drive arithmetic of `_ik` (lines 513-514):
`u_left = v/r - (L*ω)/(2r)`, `u_right = v/r + (L*ω)/(2r)` applied
batch-wise to the two input columns. -/
def ikCompute (r L : ℚ) (c0 c1 : List ℚ) : List ℚ × List ℚ :=
  (List.zipWith (fun v w => v / r - (L * w) / (2 * r)) c0 c1,
   List.zipWith (fun v w => v / r + (L * w) / (2 * r)) c0 c1)

/-- `_ik` (lines 507-519). Evaluation order follows the Python expression
`(u[:, 0] / r) - ((L * u[:, 1]) / (2 * r))`: column 0 is read first
(`IndexError` if absent), then `r = actor.wheel_radius` is used
(`TypeError` if it is `None`), then column 1, then `L = actor.wheel_base`.
There is no guard against `r = 0`: the division is performed unguarded. -/
def ik (actor : ActorWrapper) (m : List (List ℚ)) : Except Err (List ℚ × List ℚ) := do
  let c0 ← colRead m 0
  match actor.wheel_radius with
  | none => Except.error Err.typeError
  | some r => do
    let c1 ← colRead m 1
    match actor.wheel_base with
    | none => Except.error Err.typeError
    | some L => Except.ok (ikCompute r L c0 c1)

/-- `u[u[:, mcol] ⋄ 0.0, tcol] = v`: rows whose *current* `mcol` entry
satisfies the predicate get `v` written at `tcol`; each of the four gripper
lines re-evaluates its mask on the already-mutated tensor. -/
def maskedAssign (u : List (List ℚ)) (mcol : Nat) (p : ℚ → Bool) (tcol : Nat)
    (v : ℚ) : List (List ℚ) :=
  u.map (fun row => if p (row.getD mcol 0) then row.set tcol v else row)

/-- The `panda_gripper` special case (lines 558-562), four masked writes in
source order. `dofCount` is `actor_dof_count`; the column indices
`dofCount-1`, `dofCount-2` index the *full-width* DOF tensor, exactly as in
the source. -/
def gripperOverride (u : List (List ℚ)) (dofCount : Nat) : List (List ℚ) :=
  let u1 := maskedAssign u (dofCount - 1) (fun x => decide (0 < x)) (dofCount - 1) (1/10)
  let u2 := maskedAssign u1 (dofCount - 1) (fun x => decide (0 ≤ x)) (dofCount - 1) (-(1/10))
  let u3 := maskedAssign u2 (dofCount - 1) (fun x => decide (0 < x)) (dofCount - 2) (1/10)
  maskedAssign u3 (dofCount - 1) (fun x => decide (0 ≤ x)) (dofCount - 2) (-(1/10))

/-- `name in xs` where `xs` is an `Optional[List[str]]`: membership in
`None` raises `TypeError`. -/
def memOpt (name : String) (l : Option (List String)) : Except Err Bool :=
  match l with
  | none => Except.error Err.typeError
  | some xs => Except.ok (xs.contains name)

/-- One iteration of the inner joint loop (lines 549-556) for a
differential-drive robot: left/right wheel joints receive the precomputed
wheel columns, every other joint consumes one input column at the shared
cursor. The accumulator is `(u, u_desired_idx)`. -/
def jointStepDiff (u_desired : List (List ℚ)) (lw rw : Option (List String))
    (wl wr : List ℚ) (acc : List (List ℚ) × Nat) (joint : String × Nat) :
    Except Err (List (List ℚ) × Nat) := do
  let isL ← memOpt joint.1 lw
  if isL then Except.ok (colWrite acc.1 joint.2 wl, acc.2)
  else do
    let isR ← memOpt joint.1 rw
    if isR then Except.ok (colWrite acc.1 joint.2 wr, acc.2)
    else do
      let col ← colRead u_desired acc.2
      Except.ok (colWrite acc.1 joint.2 col, acc.2 + 1)

/-- One iteration of the inner joint loop (lines 549-556) for a robot
without differential drive: every joint consumes one input column at the
shared cursor. -/
def jointStepPlain (u_desired : List (List ℚ)) (acc : List (List ℚ) × Nat)
    (joint : String × Nat) : Except Err (List (List ℚ) × Nat) := do
  let col ← colRead u_desired acc.2
  Except.ok (colWrite acc.1 joint.2 col, acc.2 + 1)

/-- Loop-carried state of `apply_robot_cmd`: the assembled DOF tensor `u`,
the shared input-column cursor `u_desired_idx`, and the `dof_mode`
variable. -/
structure CmdAcc where
  u : List (List ℚ)
  idx : Nat
  dmode : Option String

/-- One iteration of the actor loop of `apply_robot_cmd` (lines 531-562).
Line 534 assigns `dof_mode = actor.dof_mode` *before* the guard at lines
536-537, so the guard compares the value with itself and can never raise:
mixed drive modes pass through undetected and the last robot's mode wins.
For differential drive, `_ik` is fed `u_desired[:, :2]` — the *first* two
input columns, not the two at the cursor — while the cursor still advances
by 2 (lines 543-547). -/
def applyActorStep (be : Backend) (u_desired : List (List ℚ)) (acc : CmdAcc)
    (actor : ActorWrapper) : Except Err CmdAcc :=
  if actor.type ≠ ActorType.robot then Except.ok acc
  else
    let dm : Option String := some actor.dof_mode
    if dm ≠ none ∧ dm ≠ some actor.dof_mode then Except.error Err.valueError
    else
      match actor.handle with
      | none => Except.error Err.typeError
      | some h =>
        let cnt := be.dof_count h
        let dict := be.dof_dict h
        if actor.differential_drive then do
          let wheels ← ik actor u_desired
          let r ← dict.foldlM
            (jointStepDiff u_desired actor.left_wheel_joints
              actor.right_wheel_joints wheels.1 wheels.2) (acc.u, acc.idx + 2)
          let u2 := if actor.name = "panda_gripper" then gripperOverride r.1 cnt else r.1
          Except.ok ⟨u2, r.2, dm⟩
        else do
          let r ← dict.foldlM (jointStepPlain u_desired) (acc.u, acc.idx)
          let u2 := if actor.name = "panda_gripper" then gripperOverride r.1 cnt else r.1
          Except.ok ⟨u2, r.2, dm⟩

/-- `apply_robot_cmd` (lines 521-569): zero-initialise `u` with the shape
of half the DOF-state width (line 525-527), run the actor loop, then
dispatch `u` to exactly one backend sink according to the *final* value of
`dof_mode` (lines 564-569); any exception raised in the loop propagates
before any sink is written. The 1-D `unsqueeze` convenience of line 522-523
is outside the model: inputs are already batches. -/
def apply_robot_cmd (s : SimState) (u_desired : List (List ℚ)) :
    Except Err SimState := do
  let u0 := List.replicate s.num_envs (List.replicate s.backend.total_dofs (0 : ℚ))
  let res ← s.env_cfg.foldlM (applyActorStep s.backend u_desired) ⟨u0, 0, none⟩
  match res.dmode with
  | some m =>
    if m = "effort" then Except.ok { s with sink_effort := some res.u }
    else if m = "velocity" then Except.ok { s with sink_velocity := some res.u }
    else if m = "position" then Except.ok { s with sink_dofstate := some res.u }
    else Except.ok s
  | none => Except.ok s

/-- Projection used by the concrete evaluation theorems: the three backend
actuation sinks of a successful dispatch, `none` when the call raised. -/
def sinksOf : Except Err SimState →
    Option (Option (List (List ℚ)) × Option (List (List ℚ)) × Option (List (List ℚ)))
  | Except.ok t => some (t.sink_effort, t.sink_velocity, t.sink_dofstate)
  | Except.error _ => none

/-- One observed obstacle: `{position, velocity, size}` (the dict values of
the `obstacles` parameter, in order; the external ids are keys the source
never reads — names derive from the enumeration index). -/
structure Obst where
  position : List ℚ
  velocity : List ℚ
  size : List ℚ
  deriving DecidableEq, Repr

/-- `obst_state = [*pos, 0, 0, 0, 1, *vel, 0, 0, 0]` (lines 724-726):
position, identity orientation, linear velocity, zero angular velocity. -/
def obstRow (o : Obst) : List ℚ :=
  o.position ++ [0, 0, 0, 1] ++ o.velocity ++ [0, 0, 0]

/-- `all([a == b for a, b in zip(o_size, stored_size)])` (line 729); note
that `zip` truncates to the shorter list, exactly as in Python. -/
def zipAllEq (a b : List ℚ) : Bool :=
  (List.zip a b).all (fun p => p.1 == p.2)

/-- Descriptor appended for an unseen obstacle (lines 710-720). -/
def newObstActor (name : String) (size : List ℚ) : ActorWrapper :=
  { type := ActorType.sphere, name := name, handle := none, size := size,
    fixed := true }

/-- `name = f"{o_type}{i}"` with `o_type = "sphere"` (lines 702-704). -/
def obstacleName (i : Nat) : String := "sphere" ++ toString i

/-- One iteration of the obstacle loop (lines 699-734) over the running
`(env_cfg, root_state, env_cfg_changed)` triple: an unseen name appends a
new fixed sphere descriptor and marks the configuration changed
(`continue`, so no state row is written); a seen name first flags and
stores a changed size (zip-compare, line 729-731), then overwrites the
actor's full root-state row in every environment (lines 733-734). -/
def obstStep (acc : List ActorWrapper × List (List (List ℚ)) × Bool)
    (io : Nat × Obst) : List ActorWrapper × List (List (List ℚ)) × Bool :=
  let name := obstacleName io.1
  match acc.1.findIdx? (fun a => a.name == name) with
  | none => (acc.1 ++ [newObstActor name io.2.size], acc.2.1, true)
  | some idx =>
    let szEq := zipAllEq io.2.size ((acc.1.getD idx dummyActor).size)
    let cfg2 := if szEq = false then modifyAt acc.1 idx (fun a => { a with size := io.2.size }) else acc.1
    let chg2 := if szEq = false then true else acc.2.2
    (cfg2, acc.2.1.map (fun env => modifyAt env idx (fun _ => obstRow io.2)), chg2)

/-- `update_root_state_tensor_by_obstacles` (lines 692-743): run the
obstacle loop, then — only when the configuration changed — tear the
session down and rebuild it (`stop_sim`; `start_sim`), and finally push the
full root-state tensor to the backend. The method has no `return`
statement: its Python return value is `None`, modelled as the second
component `none : Option Bool` (it never hands the caller a rebuilt
flag). -/
def update_root_state_tensor_by_obstacles (s : SimState) (obstacles : List Obst) :
    SimState × Option Bool :=
  let acc := obstacles.enum.foldl obstStep (s.env_cfg, s.root_state, false)
  let s1 := { s with env_cfg := acc.1, root_state := acc.2.1 }
  let s2 := if acc.2.2 then start_sim (stop_sim s1) else s1
  ({ s2 with backend_root := s2.root_state }, none)

/-- Number of input columns the actor loop consumes for a configuration
without differential drive: one per DOF-dictionary entry of each robot
(an unregistered robot contributes nothing — the loop would raise before
consuming). -/
def plainNeeded (be : Backend) : List ActorWrapper → Nat
  | [] => 0
  | a :: rest =>
    (if a.type = ActorType.robot then
      (match a.handle with
       | some h => (be.dof_dict h).length
       | none => 0)
     else 0) + plainNeeded be rest

/-- Row `j` of environment `e` of a root-state tensor (empty when out of
range). -/
def rowAt (t : List (List (List ℚ))) (e j : Nat) : List ℚ :=
  (t.getD e []).getD j []

/-- A trivial backend for fixtures that never query DOF data. -/
def be0 : Backend := ⟨fun _ => 0, fun _ => [], 0⟩

/-- Backend for the C1 fixture: the single robot has two DOFs. -/
def beC1 : Backend := ⟨fun _ => 2, fun _ => [("j0", 0), ("j1", 1)], 2⟩

/-- C1 fixture: one robot and one sphere with distinct names. -/
def cfgC1 : List ActorWrapper :=
  [{ type := ActorType.robot, name := "rob", init_pos := [1, 2, 3] },
   { type := ActorType.sphere, name := "ball", init_pos := [4, 5, 6] }]

/-- C1 fixture: the session built from `cfgC1`. -/
def sC1 : SimState := wrapperInit cfgC1 1 beC1

/-- Backend for the C2 fixture: robots with handles 0 and 1 own one DOF
each, at global DOF columns 0 and 1. -/
def beC2 : Backend := ⟨fun _ => 1, fun h => [(if h = 0 then "a0" else "b0", h)], 2⟩

/-- C2 fixture: two robots with *different* drive modes in one registry. -/
def sC2 : SimState := wrapperInit
  [{ type := ActorType.robot, name := "a", dof_mode := "velocity" },
   { type := ActorType.robot, name := "b", dof_mode := "position" }] 1 beC2

/-- Backend for the C3 fixture: a single robot with a single DOF. -/
def beC3 : Backend := ⟨fun _ => 1, fun _ => [("j0", 0)], 1⟩

/-- C3 fixture: one velocity-mode robot with one active DOF. -/
def sC3 : SimState := wrapperInit [{ type := ActorType.robot, name := "r" }] 1 beC3

/-- Backend for the C5 fixture: the gripper robot has two DOFs. -/
def beC5 : Backend := ⟨fun _ => 2, fun _ => [("f1", 0), ("f2", 1)], 2⟩

/-- C5 fixture: a single robot carrying the reserved gripper name, two
environments so both threshold branches (positive and negative gripper
command) are exercised in one call. -/
def sC5 : SimState :=
  wrapperInit [{ type := ActorType.robot, name := "panda_gripper" }] 2 beC5

/-- Backend for the C7 fixture: the differential-drive robot has exactly
its two wheel DOFs. -/
def beC7 : Backend := ⟨fun _ => 2, fun _ => [("wl", 0), ("wr", 1)], 2⟩

/-- C7 fixture: one differential-drive robot, wheel radius 0.1, wheel
base 0.5. -/
def sC7 : SimState := wrapperInit
  [{ type := ActorType.robot, name := "boxer", differential_drive := true,
     wheel_radius := some (1/10), wheel_base := some (1/2),
     left_wheel_joints := some ["wl"], right_wheel_joints := some ["wr"] }] 1 beC7

/-- Backend for the C7 counterexample fixture: robot 0 has one plain DOF
(column 0), robot 1 the two wheel DOFs (columns 1, 2). -/
def beC7x : Backend :=
  ⟨(fun h => if h = 0 then 1 else 2),
   (fun h => if h = 0 then [("a0", 0)] else [("wl", 1), ("wr", 2)]), 3⟩

/-- C7 counterexample fixture: a one-DOF robot *precedes* the
differential-drive robot, so the input cursor sits at column 1 when the
differential-drive robot is processed. -/
def sC7x : SimState := wrapperInit
  [{ type := ActorType.robot, name := "a" },
   { type := ActorType.robot, name := "boxer", differential_drive := true,
     wheel_radius := some (1/10), wheel_base := some (1/2),
     left_wheel_joints := some ["wl"], right_wheel_joints := some ["wr"] }] 1 beC7x

/-- C4 fixture: a session already holding the obstacle actor `"sphere0"`
of size `[0.1]`. -/
def sC4 : SimState :=
  wrapperInit [{ type := ActorType.sphere, name := "sphere0", size := [1/10] }] 1 be0

/-- C4 fixture: an observed obstacle whose size `[0.1]` equals the stored
descriptor's size. -/
def obC4 : Obst := ⟨[1, 1, 0], [0, 0, 0], [1/10]⟩

/-- C6 fixture: the session built from two descriptors sharing the name
`"a"`. -/
def sC6 : SimState := wrapperInit
  [{ type := ActorType.box, name := "a" },
   { type := ActorType.sphere, name := "a" }] 1 be0

/-- C9 fixture: a differential-drive robot whose optional `wheel_radius`
was left at its default `None`. -/
def diffRobotNoRadius : ActorWrapper :=
  { type := ActorType.robot, name := "d", differential_drive := true,
    wheel_base := some (1/2),
    left_wheel_joints := some ["wl"], right_wheel_joints := some ["wr"] }

/-- Backend for the C3 witness fixture: one robot with two DOFs. -/
def beC3w : Backend := ⟨fun _ => 2, fun _ => [("j0", 0), ("j1", 1)], 2⟩

/-- C3 witness fixture: a session with two active DOFs, to be driven with
a one-column command. -/
def sC3w : SimState := wrapperInit [{ type := ActorType.robot, name := "r2" }] 1 beC3w

/-! ### Helper lemmas -/

theorem modifyAt_nil {α : Type} (i : Nat) (f : α → α) : modifyAt ([] : List α) i f = [] := rfl

theorem modifyAt_getD_ne {α : Type} (l : List α) (i j : Nat) (f : α → α) (d : α)
    (h : j ≠ i) : (modifyAt l i f).getD j d = l.getD j d := by
  induction l generalizing i j with
  | nil => rfl
  | cons x xs ih =>
    cases i with
    | zero =>
      cases j with
      | zero => exact absurd rfl h
      | succ m => rfl
    | succ n =>
      cases j with
      | zero => rfl
      | succ m => exact ih n m (fun hh => h (by rw [hh]))

theorem modifyAt_getD_self {α : Type} (l : List α) (i : Nat) (f : α → α) (d : α)
    (h : i < l.length) : (modifyAt l i f).getD i d = f (l.getD i d) := by
  induction l generalizing i with
  | nil => exact absurd h (by simp)
  | cons x xs ih =>
    cases i with
    | zero => rfl
    | succ n => exact ih n (Nat.lt_of_succ_lt_succ h)

theorem modifyAt_of_le {α : Type} (l : List α) (i : Nat) (f : α → α)
    (h : l.length ≤ i) : modifyAt l i f = l := by
  induction l generalizing i with
  | nil => rfl
  | cons x xs ih =>
    cases i with
    | zero => exact absurd h (by simp)
    | succ n =>
      show x :: modifyAt xs n f = x :: xs
      rw [ih n (Nat.le_of_succ_le_succ h)]

theorem length_modifyAt {α : Type} (l : List α) (i : Nat) (f : α → α) :
    (modifyAt l i f).length = l.length := by
  induction l generalizing i with
  | nil => rfl
  | cons x xs ih =>
    cases i with
    | zero => rfl
    | succ n =>
      show (modifyAt xs n f).length + 1 = xs.length + 1
      rw [ih n]

theorem zipWith_getElem? {α β γ : Type} (f : α → β → γ) (l1 : List α) (l2 : List β)
    (n : Nat) :
    (List.zipWith f l1 l2)[n]? =
      match l1[n]?, l2[n]? with
      | some a, some b => some (f a b)
      | _, _ => none := by
  induction l1 generalizing l2 n with
  | nil => simp
  | cons x xs ih =>
    cases l2 with
    | nil => simp
    | cons y ys =>
      cases n with
      | zero => simp
      | succ m => simpa using ih ys m

theorem assignHandles_names_aux (n : Nat) (cfg : List ActorWrapper) :
    ((List.enumFrom n cfg).map
        (fun p => ({ p.2 with handle := some p.1 } : ActorWrapper))).map
      (fun a => a.name) = cfg.map (fun a => a.name) := by
  induction cfg generalizing n with
  | nil => rfl
  | cons x xs ih =>
    show x.name :: _ = x.name :: _
    rw [ih (n + 1)]

theorem assignHandles_names (cfg : List ActorWrapper) :
    (assignHandles cfg).map (fun a => a.name) = cfg.map (fun a => a.name) :=
  assignHandles_names_aux 0 cfg

theorem start_sim_of_ne (s : SimState) (h : s.restarted ≠ 2) :
    (start_sim s).env_cfg.map (fun a => a.name) = s.env_cfg.map (fun a => a.name)
    ∧ (start_sim s).restarted = s.restarted + 1 := by
  constructor
  · show (assignHandles (if s.restarted = 2 then s.env_cfg ++ [dummyActor] else s.env_cfg)).map
        (fun a => a.name) = _
    rw [if_neg h, assignHandles_names]
  · rfl

theorem start_sim_of_eq (s : SimState) (h : s.restarted = 2) :
    (start_sim s).env_cfg.map (fun a => a.name)
      = s.env_cfg.map (fun a => a.name) ++ ["dummy"]
    ∧ (start_sim s).restarted = s.restarted + 1 := by
  constructor
  · show (assignHandles (if s.restarted = 2 then s.env_cfg ++ [dummyActor] else s.env_cfg)).map
        (fun a => a.name) = _
    rw [if_pos h, assignHandles_names, List.map_append]
    rfl
  · rfl

theorem start_sim_iterate_names (m : Nat) (s : SimState) (h : 3 ≤ s.restarted) :
    (start_sim^[m] s).env_cfg.map (fun a => a.name)
      = s.env_cfg.map (fun a => a.name) := by
  induction m generalizing s with
  | zero => rfl
  | succ k ih =>
    rw [Function.iterate_succ_apply]
    have hne : s.restarted ≠ 2 := by omega
    have h2 := start_sim_of_ne s hne
    rw [ih (start_sim s) (by rw [h2.2]; omega)]
    exact h2.1

/-! ### Claim theorems -/

/-- C1: the three addressing modes are claimed to resolve an actor to the
same root-state row. On the code they do not even all resolve: in the
session built from `cfgC1`, name resolution and raw actor-index resolution
both return the robot's row `[[1, 2, 3]]`, and `start_sim` did record the
robot position list into `robot_indices`, but the robot-index path reads
the never-assigned attribute `_robot_indices` and raises `AttributeError`
(isaacgym_wrapper.py line 206 assigns `self.robot_indices`, line 296 reads
`self._robot_indices`). -/
theorem c1_robot_index_path_fails :
    get_actor_position_by_name sC1 "rob" = Except.ok [[1, 2, 3]]
    ∧ get_actor_position_by_actor_index sC1 0 = Except.ok [[1, 2, 3]]
    ∧ get_actor_position_by_robot_index sC1 0 = Except.error Err.attributeError
    ∧ sC1.robot_indices = [0] := by
  refine ⟨?_, ?_, ?_, ?_⟩ <;> with_unfolding_all rfl

/-- C2: mixing `dof_mode = "velocity"` and `dof_mode = "position"` robots
is claimed to fail with a configuration error. It does not: the guard at
lines 536-537 compares `dof_mode` with itself (line 534 assigns it first),
so `apply_robot_cmd` on the mixed registry `sC2` raises nothing and
dispatches the assembled tensor to the position sink — the mode of the
*last* robot wins. -/
theorem c2_mixed_modes_not_rejected :
    sinksOf (apply_robot_cmd sC2 [[2, 3]]) = some (none, none, some [[2, 3]]) := by
  with_unfolding_all rfl

/-- C3 counterexample: registry `sC3` has exactly one active DOF, yet a
command with two columns — a count different from the active-DOF sum — is
dispatched without any error and writes the velocity sink (the surplus
column is silently ignored), contradicting the claim that every mismatched
column count fails with a dimension error and leaves the sink unchanged. -/
theorem c3_surplus_columns_dispatched :
    sinksOf (apply_robot_cmd sC3 [[5, 7]]) = some (none, some [[5]], none) := by
  with_unfolding_all rfl

/-- C4 counterexample: `update_root_state_tensor_by_obstacles` has no
`return` statement — its Python return value is `None` (second component
of the model), so at this concrete seen-id same-size input the caller does
not receive the claimed `rebuilt=false` flag (nor `rebuilt=true` on any
other input). -/
theorem c4_returns_no_flag :
    (update_root_state_tensor_by_obstacles sC4 [obC4]).2 = none
    ∧ (update_root_state_tensor_by_obstacles sC4 [obC4]).2 ≠ some false
    ∧ (update_root_state_tensor_by_obstacles sC4 [obC4]).2 ≠ some true := by
  refine ⟨rfl, ?_, ?_⟩ <;> exact fun h => Option.noConfusion h

/-- C5: the claim says a positive gripper command sets *both* of the last
two DOF targets to 0.1 and a non-positive one sets both to −0.1. The four
masked writes at lines 558-562 do neither: each mask is re-evaluated on the
already-overwritten tensor, so for `sC5` (gripper DOF targets 0.3, 0.7 in
environment 0 and 0.2, −0.5 in environment 1) the positive command 0.7
ends at −0.1 (line 559 writes 0.1, line 560 immediately overwrites it with
−0.1), the negative command −0.5 is left untouched instead of becoming
−0.1, and the second-to-last column is never modified (lines 561-562 test
column `dof_count−1` *after* it was forced negative, so they never fire). -/
theorem c5_gripper_override_defective :
    sinksOf (apply_robot_cmd sC5 [[3/10, 7/10], [2/10, -(5/10)]])
      = some (none, some [[3/10, -(1/10)], [2/10, -(5/10)]], none) := by
  with_unfolding_all rfl

/-- C6: building a session from two descriptors that share the name `"a"`
is claimed to fail. The constructor performs no duplicate-name check (line
98 is a TODO comment), so the session is built, both descriptors receive
handles, and name resolution silently returns the first match. -/
theorem c6_duplicate_names_accepted :
    sC6.env_cfg.map (fun a => a.name) = ["a", "a"]
    ∧ sC6.env_cfg.map (fun a => a.handle) = [some 0, some 1]
    ∧ get_actor_index_by_name sC6 "a" = Except.ok 0 := by
  refine ⟨?_, ?_, ?_⟩ <;> with_unfolding_all rfl

/-- C7 counterexample: in `sC7x` a one-DOF robot precedes the
differential-drive robot, so the "next two" command columns for the latter
are columns 1 and 2 — here `(0, 0)`, which the claimed kinematics maps to
wheel velocities `(0, 0)` (second conjunct). The code instead feeds `_ik`
with `u_desired[:, :2]`, the *first* two columns `(3, 0)` (line 545), and
both wheels get 30. -/
theorem c7_ik_reads_first_columns :
    sinksOf (apply_robot_cmd sC7x [[3, 0, 0]]) = some (none, some [[3, 30, 30]], none)
    ∧ ikCompute (1/10) (1/2) [0] [0] = ([0], [0]) := by
  constructor <;> with_unfolding_all rfl

/-- C7 amended: the wheel-velocity arithmetic is exactly the claimed
kinematic relation `ω_left = v/r − (L·ω)/(2r)`, `ω_right = v/r + (L·ω)/(2r)`
(meaningful for `r ≠ 0`), and on a registry whose differential-drive robot
is first — so that the first two columns coincide with the next two —
`apply_robot_cmd` with `r = 0.1`, `L = 0.5` maps input `(1, 0)` to wheel
velocities `(10, 10)` and input `(0, 2)` to `(−5, 5)`, dispatched to the
velocity sink. -/
theorem c7_diff_drive_kinematics :
    (∀ r L v w : ℚ, r ≠ 0 →
      ikCompute r L [v] [w]
        = ([v / r - (L * w) / (2 * r)], [v / r + (L * w) / (2 * r)]))
    ∧ sinksOf (apply_robot_cmd sC7 [[1, 0]]) = some (none, some [[10, 10]], none)
    ∧ sinksOf (apply_robot_cmd sC7 [[0, 2]]) = some (none, some [[-5, 5]], none) := by
  refine ⟨fun r L v w _ => rfl, ?_, ?_⟩ <;> with_unfolding_all rfl

/-- C7 witness: the kinematic conjunct of `c7_diff_drive_kinematics`
instantiated at `r = 0.1`, `L = 0.5`, `(v, ω) = (1, 0)`. -/
theorem c7_diff_drive_kinematics_witness :
    ((1 : ℚ)/10 ≠ 0)
    ∧ ikCompute (1/10) (1/2) [1] [0]
        = ([1 / (1/10) - ((1/2) * 0) / (2 * (1/10))],
           [1 / (1/10) + ((1/2) * 0) / (2 * (1/10))]) :=
  ⟨by norm_num, c7_diff_drive_kinematics.1 (1/10) (1/2) 1 0 (by norm_num)⟩

/-- C10: starting from a configuration without a `"dummy"` actor, the
first session build (performed by the constructor) leaves the descriptor
names unchanged; every sequence of `n ≥ 1` rebuilds appends the hidden
fixed sphere `"dummy"` exactly once — on the second build overall, when
the restart counter equals 2 — so the registry never holds more than one
`"dummy"` descriptor and the descriptor list differs between the first
session and all later ones. -/
theorem c10_dummy_appended_once (cfg0 : List ActorWrapper) (k : Nat) (be : Backend)
    (n : Nat) (hnd : "dummy" ∉ cfg0.map (fun a => a.name)) :
    ((start_sim^[n] (wrapperInit cfg0 k be)).env_cfg.map (fun a => a.name)
      = cfg0.map (fun a => a.name) ++ (if n = 0 then [] else ["dummy"]))
    ∧ (((start_sim^[n] (wrapperInit cfg0 k be)).env_cfg.map (fun a => a.name)).count "dummy"
      = if n = 0 then 0 else 1) := by
  have h0 : (wrapperInit cfg0 k be).env_cfg.map (fun a => a.name)
      = cfg0.map (fun a => a.name) := by
    have := start_sim_of_ne
      { env_cfg := cfg0, restarted := 1, num_envs := k, backend := be,
        root_state := [], backend_root := [], saved_root_state := none,
        robot_indices := [], robot_indices_attr := none,
        sink_effort := none, sink_velocity := none, sink_dofstate := none }
      (by simp)
    exact this.1
  have hr0 : (wrapperInit cfg0 k be).restarted = 2 := rfl
  have hmain : (start_sim^[n] (wrapperInit cfg0 k be)).env_cfg.map (fun a => a.name)
      = cfg0.map (fun a => a.name) ++ (if n = 0 then [] else ["dummy"]) := by
    cases n with
    | zero => simpa using h0
    | succ m =>
      rw [Function.iterate_succ_apply]
      have h1 := start_sim_of_eq (wrapperInit cfg0 k be) hr0
      rw [start_sim_iterate_names m _ (by rw [h1.2, hr0]), h1.1, h0]
      simp
  refine ⟨hmain, ?_⟩
  rw [hmain]
  have hz : (cfg0.map (fun a => a.name)).count "dummy" = 0 :=
    List.count_eq_zero.mpr hnd
  cases n with
  | zero => simpa using hz
  | succ m => simp [List.count_append, hz]

/-- C10 witness: `c10_dummy_appended_once` at a one-sphere configuration
and two rebuilds after construction. -/
theorem c10_dummy_appended_once_witness :
    ("dummy" ∉ ([{ type := ActorType.sphere, name := "ball" }]
        : List ActorWrapper).map (fun a => a.name))
    ∧ ((start_sim^[2] (wrapperInit [{ type := ActorType.sphere, name := "ball" }] 1 be0)).env_cfg.map
        (fun a => a.name)
      = ([{ type := ActorType.sphere, name := "ball" }]
          : List ActorWrapper).map (fun a => a.name) ++ (if 2 = 0 then [] else ["dummy"]))
    ∧ (((start_sim^[2] (wrapperInit [{ type := ActorType.sphere, name := "ball" }] 1 be0)).env_cfg.map
        (fun a => a.name)).count "dummy" = if 2 = 0 then 0 else 1) :=
  ⟨by decide,
   (c10_dummy_appended_once _ 1 be0 2 (by decide)).1,
   (c10_dummy_appended_once _ 1 be0 2 (by decide)).2⟩

/-- C4 amended: `update_root_state_tensor_by_obstacles` hands the caller
no rebuilt flag (its return value is `None`); instead it performs the
rebuild itself. For a single observed obstacle: if no actor bears the
derived name, a new fixed sphere descriptor is appended and the session is
torn down and rebuilt (the restart counter increments, all handles are
reassigned); if an actor with the name exists and its stored size
zip-equals the observed size, no rebuild happens and that actor's
root-state row is overwritten in place, in every environment, with
position, identity orientation, observed velocity and zero angular
velocity. -/
theorem c4_obstacle_reconciliation (s : SimState) (o : Obst) :
    (s.env_cfg.findIdx? (fun a => a.name == obstacleName 0) = none → s.restarted ≠ 2 →
      ((update_root_state_tensor_by_obstacles s [o]).1.env_cfg.map (fun a => a.name)
        = s.env_cfg.map (fun a => a.name) ++ [obstacleName 0])
      ∧ (update_root_state_tensor_by_obstacles s [o]).1.restarted = s.restarted + 1)
    ∧ (∀ idx, s.env_cfg.findIdx? (fun a => a.name == obstacleName 0) = some idx →
      zipAllEq o.size ((s.env_cfg.getD idx dummyActor).size) = true →
      (update_root_state_tensor_by_obstacles s [o]).1.env_cfg = s.env_cfg
      ∧ (update_root_state_tensor_by_obstacles s [o]).1.restarted = s.restarted
      ∧ (update_root_state_tensor_by_obstacles s [o]).1.root_state
          = s.root_state.map (fun env => modifyAt env idx (fun _ => obstRow o))
      ∧ (update_root_state_tensor_by_obstacles s [o]).1.backend_root
          = s.root_state.map (fun env => modifyAt env idx (fun _ => obstRow o))) := by
  constructor
  · intro hfind hre
    have hstep : ([o].enum.foldl obstStep (s.env_cfg, s.root_state, false))
        = (s.env_cfg ++ [newObstActor (obstacleName 0) o.size], s.root_state, true) := by
      show obstStep (s.env_cfg, s.root_state, false) (0, o) = _
      simp only [obstStep, hfind]
    have hupd : (update_root_state_tensor_by_obstacles s [o]).1
        = { start_sim
              { s with env_cfg := s.env_cfg ++ [newObstActor (obstacleName 0) o.size],
                       root_state := s.root_state } with
            backend_root :=
              (start_sim
                { s with env_cfg := s.env_cfg ++ [newObstActor (obstacleName 0) o.size],
                         root_state := s.root_state }).root_state } := by
      simp only [update_root_state_tensor_by_obstacles, hstep]
      simp [stop_sim]
    have hr : ({ s with env_cfg := s.env_cfg ++ [newObstActor (obstacleName 0) o.size],
                        root_state := s.root_state } : SimState).restarted ≠ 2 := hre
    have hss := start_sim_of_ne _ hr
    constructor
    · rw [hupd]
      show (start_sim _).env_cfg.map (fun a => a.name) = _
      rw [hss.1]
      show (s.env_cfg ++ [newObstActor (obstacleName 0) o.size]).map (fun a => a.name) = _
      rw [List.map_append]
      rfl
    · rw [hupd]
      show (start_sim _).restarted = _
      rw [hss.2]
  · intro idx hfind hsz
    have hstep : ([o].enum.foldl obstStep (s.env_cfg, s.root_state, false))
        = (s.env_cfg,
           s.root_state.map (fun env => modifyAt env idx (fun _ => obstRow o)), false) := by
      show obstStep (s.env_cfg, s.root_state, false) (0, o) = _
      simp only [obstStep, hfind, hsz]
      simp
    have hupd : (update_root_state_tensor_by_obstacles s [o]).1
        = { s with
            env_cfg := s.env_cfg,
            root_state := s.root_state.map (fun env => modifyAt env idx (fun _ => obstRow o)),
            backend_root :=
              s.root_state.map (fun env => modifyAt env idx (fun _ => obstRow o)) } := by
      simp only [update_root_state_tensor_by_obstacles, hstep]
      simp [stop_sim]
    rw [hupd]
    exact ⟨rfl, rfl, rfl, rfl⟩

/-- C4 witness: `c4_obstacle_reconciliation` at the concrete seen-id,
equal-size input `sC4`, `obC4`. -/
theorem c4_obstacle_reconciliation_witness :
    (sC4.env_cfg.findIdx? (fun a => a.name == obstacleName 0) = some 0)
    ∧ (zipAllEq obC4.size ((sC4.env_cfg.getD 0 dummyActor).size) = true)
    ∧ ((update_root_state_tensor_by_obstacles sC4 [obC4]).1.env_cfg = sC4.env_cfg
      ∧ (update_root_state_tensor_by_obstacles sC4 [obC4]).1.restarted = sC4.restarted
      ∧ (update_root_state_tensor_by_obstacles sC4 [obC4]).1.root_state
          = sC4.root_state.map (fun env => modifyAt env 0 (fun _ => obstRow obC4))
      ∧ (update_root_state_tensor_by_obstacles sC4 [obC4]).1.backend_root
          = sC4.root_state.map (fun env => modifyAt env 0 (fun _ => obstRow obC4))) :=
  ⟨by with_unfolding_all rfl, by with_unfolding_all rfl,
   (c4_obstacle_reconciliation sC4 obC4).2 0 (by with_unfolding_all rfl)
     (by with_unfolding_all rfl)⟩

theorem rowAt_map_modify_ne (t : List (List (List ℚ))) (i : Nat)
    (g : List ℚ → List ℚ) (e j : Nat) (h : j ≠ i) :
    rowAt (t.map (fun env => modifyAt env i g)) e j = rowAt t e j := by
  induction t generalizing e with
  | nil => rfl
  | cons env rest ih =>
    cases e with
    | zero => exact modifyAt_getD_ne env i j g [] h
    | succ m => exact ih m

theorem rowAt_zip_modify_ne (dst src : List (List (List ℚ))) (i e j : Nat)
    (h : j ≠ i) (hlen : dst.length = src.length) :
    rowAt (List.zipWith (fun denv senv => modifyAt denv i (fun _ => senv.getD i [])) dst src) e j
      = rowAt dst e j := by
  induction dst generalizing src e with
  | nil => rfl
  | cons d ds ih =>
    cases src with
    | nil => exact absurd hlen (by simp)
    | cons v vs =>
      cases e with
      | zero => exact modifyAt_getD_ne d i j _ [] h
      | succ m => exact ih vs m (by simpa using hlen)

theorem rowAt_map_modify_self (t : List (List (List ℚ))) (i : Nat)
    (g : List ℚ → List ℚ) (e : Nat) (he : e < t.length)
    (hi : i < (t.getD e []).length) :
    rowAt (t.map (fun env => modifyAt env i g)) e i = g (rowAt t e i) := by
  induction t generalizing e with
  | nil => exact absurd he (by simp)
  | cons env rest ih =>
    cases e with
    | zero => exact modifyAt_getD_self env i g [] hi
    | succ m => exact ih m (Nat.lt_of_succ_lt_succ he) hi

theorem rowAt_map_setPosRow_drop (t : List (List (List ℚ))) (p : List ℚ) (i e : Nat)
    (hp : p.length = 3) :
    (rowAt (t.map (fun env => modifyAt env i (setPosRow p))) e i).drop 3
      = (rowAt t e i).drop 3 := by
  induction t generalizing e with
  | nil => rfl
  | cons env rest ih =>
    cases e with
    | zero =>
      show ((modifyAt env i (setPosRow p)).getD i []).drop 3 = (env.getD i []).drop 3
      rcases Nat.lt_or_ge i env.length with hi | hi
      · rw [modifyAt_getD_self env i _ [] hi]
        show (p.take 3 ++ (env.getD i []).drop 3).drop 3 = _
        exact List.drop_left' (by simp [List.length_take, hp])
      · rw [modifyAt_of_le env i _ hi]
    | succ m => exact ih m

/-- C8: `set_actor_position_by_actor_index` overwrites only the position
columns (0:3) of actor `i`'s root-state rows across all environments —
columns 3:13 of row `i` and every row `j ≠ i` are unchanged — and the
indexed backend push touches only row `i` of the backend's committed
root-state copy. -/
theorem c8_partial_commit_isolation (s : SimState) (p : List ℚ) (i : Nat)
    (hp : p.length = 3) (hb : s.backend_root.length = s.root_state.length) :
    (∀ e j, j ≠ i →
      rowAt (set_actor_position_by_actor_index s p i).root_state e j
        = rowAt s.root_state e j)
    ∧ (∀ e j, j ≠ i →
      rowAt (set_actor_position_by_actor_index s p i).backend_root e j
        = rowAt s.backend_root e j)
    ∧ (∀ e, (rowAt (set_actor_position_by_actor_index s p i).root_state e i).drop 3
        = (rowAt s.root_state e i).drop 3)
    ∧ (∀ e, e < s.root_state.length → i < (s.root_state.getD e []).length →
      (rowAt (set_actor_position_by_actor_index s p i).root_state e i).take 3 = p) := by
  refine ⟨?_, ?_, ?_, ?_⟩
  · intro e j hj
    exact rowAt_map_modify_ne s.root_state i (setPosRow p) e j hj
  · intro e j hj
    exact rowAt_zip_modify_ne s.backend_root
      (s.root_state.map (fun env => modifyAt env i (setPosRow p))) i e j hj
      (by rw [hb, List.length_map])
  · intro e
    exact rowAt_map_setPosRow_drop s.root_state p i e hp
  · intro e he hi
    have h1 := rowAt_map_modify_self s.root_state i (setPosRow p) e he hi
    show (rowAt (s.root_state.map (fun env => modifyAt env i (setPosRow p))) e i).take 3 = p
    rw [h1]
    show (p.take 3 ++ (rowAt s.root_state e i).drop 3).take 3 = p
    rw [List.take_left' (by simp [List.length_take, hp]), ← hp, List.take_length]

/-- C8 witness: `c8_partial_commit_isolation` at the session `sC1` with
position `[9, 9, 9]` written to actor 0. -/
theorem c8_partial_commit_isolation_witness :
    (([9, 9, 9] : List ℚ).length = 3)
    ∧ (sC1.backend_root.length = sC1.root_state.length)
    ∧ ((∀ e j, j ≠ 0 →
        rowAt (set_actor_position_by_actor_index sC1 [9, 9, 9] 0).root_state e j
          = rowAt sC1.root_state e j)
      ∧ (∀ e j, j ≠ 0 →
        rowAt (set_actor_position_by_actor_index sC1 [9, 9, 9] 0).backend_root e j
          = rowAt sC1.backend_root e j)
      ∧ (∀ e, (rowAt (set_actor_position_by_actor_index sC1 [9, 9, 9] 0).root_state e 0).drop 3
          = (rowAt sC1.root_state e 0).drop 3)
      ∧ (∀ e, e < sC1.root_state.length → 0 < (sC1.root_state.getD e []).length →
        (rowAt (set_actor_position_by_actor_index sC1 [9, 9, 9] 0).root_state e 0).take 3
          = [9, 9, 9])) :=
  ⟨rfl, rfl, c8_partial_commit_isolation sC1 [9, 9, 9] 0 rfl rfl⟩

theorem c9_step_raises (be : Backend) (u : List (List ℚ)) (acc : CmdAcc)
    (hcol : (u.all (fun row => decide (0 < row.length))) = true) :
    applyActorStep be u acc { diffRobotNoRadius with handle := some 0 }
      = Except.error Err.typeError := by
  have hik : ik { diffRobotNoRadius with handle := some 0 } u
      = Except.error Err.typeError := by
    unfold ik colRead
    rw [if_pos hcol]
    rfl
  show (ik { diffRobotNoRadius with handle := some 0 } u >>= _) = _
  rw [hik]
  rfl

/-- C9: the inverse-kinematics step divides by `wheel_radius` with no
guard. A differential-drive descriptor whose optional `wheel_radius` kept
its `None` default makes the whole command path fail (`TypeError` from
`tensor / None`), for *every* command batch with at least one column; and
when `wheel_radius` is present the division is performed unguarded — even
`wheel_radius = 0` raises nothing and `_ik` returns the (meaningless)
quotients, so the computation is meaningful only under the precondition
`wheel_radius ≠ 0`. -/
theorem c9_wheel_radius_precondition (be : Backend) (k : Nat) (u : List (List ℚ))
    (hcol : (u.all (fun row => decide (0 < row.length))) = true) :
    apply_robot_cmd (wrapperInit [diffRobotNoRadius] k be) u
      = Except.error Err.typeError
    ∧ (∀ L v w : ℚ,
      ik { diffRobotNoRadius with wheel_radius := some 0, wheel_base := some L } [[v, w]]
        = Except.ok (ikCompute 0 L [v] [w])) := by
  constructor
  · have hcfg : (wrapperInit [diffRobotNoRadius] k be).env_cfg
        = [{ diffRobotNoRadius with handle := some 0 }] := rfl
    unfold apply_robot_cmd
    rw [hcfg]
    simp only [List.foldlM_cons, List.foldlM_nil]
    rw [c9_step_raises _ u _ hcol]
    rfl
  · intro L v w
    rfl

/-- C9 witness: `c9_wheel_radius_precondition` at a concrete two-column
command batch. -/
theorem c9_wheel_radius_precondition_witness :
    ((([[1, 2]] : List (List ℚ)).all (fun row => decide (0 < row.length))) = true)
    ∧ apply_robot_cmd (wrapperInit [diffRobotNoRadius] 1 be0) [[1, 2]]
        = Except.error Err.typeError
    ∧ ik { diffRobotNoRadius with wheel_radius := some 0, wheel_base := some (1/2) } [[1, 2]]
        = Except.ok (ikCompute 0 (1/2) [1] [2]) :=
  ⟨rfl,
   (c9_wheel_radius_precondition be0 1 [[1, 2]] rfl).1,
   (c9_wheel_radius_precondition be0 1 [[1, 2]] rfl).2 (1/2) 1 2⟩

theorem colRead_err (u : List (List ℚ)) (cols j : Nat)
    (hrows : ∀ row ∈ u, row.length = cols) (hne : u ≠ []) (hj : cols ≤ j) :
    colRead u j = Except.error Err.indexError := by
  cases u with
  | nil => exact absurd rfl hne
  | cons r rs =>
    have hcond : ¬ (((r :: rs).all (fun row => decide (j < row.length))) = true) := by
      intro hall
      have h1 := List.all_eq_true.mp hall r (by simp)
      have h2 : j < r.length := of_decide_eq_true h1
      have h3 : r.length = cols := hrows r (by simp)
      omega
    unfold colRead
    rw [if_neg hcond]

theorem colRead_ok (u : List (List ℚ)) (cols j : Nat)
    (hrows : ∀ row ∈ u, row.length = cols) (hj : j < cols) :
    colRead u j = Except.ok (u.map (fun row => row.getD j 0)) := by
  have hcond : ((u.all (fun row => decide (j < row.length))) = true) :=
    List.all_eq_true.mpr (fun row hr => decide_eq_true (by rw [hrows row hr]; exact hj))
  unfold colRead
  rw [if_pos hcond]

theorem jointsPlain_ok (u_desired : List (List ℚ)) (cols : Nat)
    (hrows : ∀ row ∈ u_desired, row.length = cols) :
    ∀ (dict : List (String × Nat)) (ua : List (List ℚ)) (c : Nat),
    c + dict.length ≤ cols →
    ∃ u', List.foldlM (jointStepPlain u_desired) (ua, c) dict
        = Except.ok (u', c + dict.length) := by
  intro dict
  induction dict with
  | nil => exact fun ua c _ => ⟨ua, rfl⟩
  | cons d ds ih =>
    intro ua c h
    have hlen : c + (d :: ds).length = (c + 1) + ds.length := by
      simp [List.length_cons]
      omega
    have hc : c < cols := by
      simp [List.length_cons] at h
      omega
    have hstep : jointStepPlain u_desired (ua, c) d
        = Except.ok (colWrite ua d.2 (u_desired.map (fun row => row.getD c 0)), c + 1) := by
      unfold jointStepPlain
      rw [colRead_ok u_desired cols c hrows hc]
      rfl
    obtain ⟨u', hu'⟩ := ih (colWrite ua d.2 (u_desired.map (fun row => row.getD c 0)))
      (c + 1) (by rw [← hlen]; exact h)
    refine ⟨u', ?_⟩
    rw [hlen, List.foldlM_cons, hstep]
    show List.foldlM (jointStepPlain u_desired)
      (colWrite ua d.2 (u_desired.map (fun row => row.getD c 0)), c + 1) ds = _
    exact hu'

theorem jointsPlain_err (u_desired : List (List ℚ)) (cols : Nat)
    (hrows : ∀ row ∈ u_desired, row.length = cols) (hne : u_desired ≠ []) :
    ∀ (dict : List (String × Nat)) (ua : List (List ℚ)) (c : Nat),
    c ≤ cols → cols < c + dict.length →
    List.foldlM (jointStepPlain u_desired) (ua, c) dict
      = Except.error Err.indexError := by
  intro dict
  induction dict with
  | nil =>
    intro ua c h1 h2
    simp only [List.length_nil, Nat.add_zero] at h2
    exact absurd h2 (Nat.not_lt.mpr h1)
  | cons d ds ih =>
    intro ua c h1 h2
    rcases Nat.lt_or_ge c cols with hc | hc
    · have hstep : jointStepPlain u_desired (ua, c) d
          = Except.ok (colWrite ua d.2 (u_desired.map (fun row => row.getD c 0)), c + 1) := by
        unfold jointStepPlain
        rw [colRead_ok u_desired cols c hrows hc]
        rfl
      rw [List.foldlM_cons, hstep]
      show List.foldlM (jointStepPlain u_desired)
        (colWrite ua d.2 (u_desired.map (fun row => row.getD c 0)), c + 1) ds = _
      refine ih _ (c + 1) hc ?_
      simp only [List.length_cons] at h2
      omega
    · have hstep : jointStepPlain u_desired (ua, c) d = Except.error Err.indexError := by
        unfold jointStepPlain
        rw [colRead_err u_desired cols c hrows hne hc]
        rfl
      rw [List.foldlM_cons, hstep]
      rfl

theorem actorFold_err (be : Backend) (u_desired : List (List ℚ)) (cols : Nat)
    (hrows : ∀ row ∈ u_desired, row.length = cols) (hne : u_desired ≠ []) :
    ∀ (cfg : List ActorWrapper) (acc : CmdAcc),
    (∀ a ∈ cfg, a.differential_drive = false) →
    (∀ a ∈ cfg, a.type = ActorType.robot → a.handle.isSome = true) →
    acc.idx ≤ cols → cols < acc.idx + plainNeeded be cfg →
    List.foldlM (applyActorStep be u_desired) acc cfg
      = Except.error Err.indexError := by
  intro cfg
  induction cfg with
  | nil =>
    intro acc _ _ h1 h2
    simp only [plainNeeded, Nat.add_zero] at h2
    exact absurd h2 (Nat.not_lt.mpr h1)
  | cons a rest ih =>
    intro acc hdiff hh h1 h2
    by_cases hrob : a.type = ActorType.robot
    · have hd : a.differential_drive = false := hdiff a (List.mem_cons_self a rest)
      obtain ⟨h, hhandle⟩ :=
        Option.isSome_iff_exists.mp (hh a (List.mem_cons_self a rest) hrob)
      have hpn : plainNeeded be (a :: rest)
          = (be.dof_dict h).length + plainNeeded be rest := by
        show (if a.type = ActorType.robot then
            (match a.handle with
             | some hh => (be.dof_dict hh).length
             | none => 0)
          else 0) + plainNeeded be rest = _
        rw [if_pos hrob, hhandle]
      have hunfold : applyActorStep be u_desired acc a
          = (List.foldlM (jointStepPlain u_desired) (acc.u, acc.idx) (be.dof_dict h) >>=
              fun r => Except.ok
                ⟨if a.name = "panda_gripper" then gripperOverride r.1 (be.dof_count h)
                  else r.1, r.2, some a.dof_mode⟩) := by
        unfold applyActorStep
        rw [if_neg (fun hcon => hcon hrob), if_neg (fun hcon => hcon.2 rfl), hhandle, hd]
        rfl
      rcases Nat.lt_or_ge cols (acc.idx + (be.dof_dict h).length) with hcase | hcase
      · rw [List.foldlM_cons, hunfold,
          jointsPlain_err u_desired cols hrows hne (be.dof_dict h) acc.u acc.idx h1 hcase]
        rfl
      · obtain ⟨u', hu'⟩ :=
          jointsPlain_ok u_desired cols hrows (be.dof_dict h) acc.u acc.idx hcase
        rw [List.foldlM_cons, hunfold, hu']
        show List.foldlM (applyActorStep be u_desired)
          ⟨if a.name = "panda_gripper" then gripperOverride u' (be.dof_count h) else u',
            acc.idx + (be.dof_dict h).length, some a.dof_mode⟩ rest = _
        refine ih _ (fun x hx => hdiff x (List.mem_cons_of_mem a hx))
          (fun x hx => hh x (List.mem_cons_of_mem a hx)) hcase ?_
        rw [hpn] at h2
        show cols < (acc.idx + (be.dof_dict h).length) + plainNeeded be rest
        omega
    · have hstep : applyActorStep be u_desired acc a = Except.ok acc := by
        unfold applyActorStep
        rw [if_pos hrob]
      rw [List.foldlM_cons, hstep]
      show List.foldlM (applyActorStep be u_desired) acc rest = _
      have hpn : plainNeeded be (a :: rest) = plainNeeded be rest := by
        show (if a.type = ActorType.robot then
            (match a.handle with
             | some hh => (be.dof_dict hh).length
             | none => 0)
          else 0) + plainNeeded be rest = _
        rw [if_neg hrob, Nat.zero_add]
      refine ih acc (fun x hx => hdiff x (List.mem_cons_of_mem a hx))
        (fun x hx => hh x (List.mem_cons_of_mem a hx)) h1 ?_
      rw [hpn] at h2
      exact h2

/-- C3 amended: the source performs no dimension check at all. A command
batch with *fewer* columns than the configuration consumes (stated here
for registries without differential drive, where the active-DOF count is
the consumed count) fails — with a torch `IndexError` from reading past
the last column, not a dedicated `DimensionMismatch` — and, because the
exception propagates before lines 564-569, no actuation sink is written
(the `Except.error` result carries no state transition). A batch with
*surplus* columns is dispatched normally with the extras ignored
(see the counterexample). -/
theorem c3_short_command_raises (s : SimState) (u_desired : List (List ℚ)) (cols : Nat)
    (hdiff : ∀ a ∈ s.env_cfg, a.differential_drive = false)
    (hh : ∀ a ∈ s.env_cfg, a.type = ActorType.robot → a.handle.isSome = true)
    (hrows : ∀ row ∈ u_desired, row.length = cols)
    (hne : u_desired ≠ [])
    (hlt : cols < plainNeeded s.backend s.env_cfg) :
    apply_robot_cmd s u_desired = Except.error Err.indexError := by
  simp only [apply_robot_cmd]
  rw [actorFold_err s.backend u_desired cols hrows hne s.env_cfg _ hdiff hh
    (Nat.zero_le cols) (by rw [Nat.zero_add]; exact hlt)]
  rfl

/-- C3 witness: `c3_short_command_raises` on `sC3w` (two active DOFs) with
a one-column command. -/
theorem c3_short_command_raises_witness :
    (∀ a ∈ sC3w.env_cfg, a.differential_drive = false)
    ∧ (∀ a ∈ sC3w.env_cfg, a.type = ActorType.robot → a.handle.isSome = true)
    ∧ (∀ row ∈ ([[5]] : List (List ℚ)), row.length = 1)
    ∧ (([[5]] : List (List ℚ)) ≠ [])
    ∧ (1 < plainNeeded sC3w.backend sC3w.env_cfg)
    ∧ apply_robot_cmd sC3w [[5]] = Except.error Err.indexError :=
  ⟨by decide, by decide, by decide, by decide, by decide,
   c3_short_command_raises sC3w [[5]] 1 (by decide) (by decide) (by decide)
     (by decide) (by decide)⟩
